import Mathlib

/-!
Verification of the Easy-Weather forecast aggregation proxy.

Shallow embedding of `apps/web/src/app/api/forecast/route.ts` (the variant
with timezone normalization and daily-field repair): the `fetchRetry`
helper, the place resolution, the timezone normalization, the air-quality
alignment and the payload assembly, together with theorems about the
specified properties.

Conventions of the embedding:
* Network effects are replaced by an *oracle* `Nat → Outcome α` giving the
  result each attempt of a fetch would observe (a response with an HTTP
  status and an already-parsed JSON body, or a thrown network error).
* JavaScript `number` values that only flow through the code unchanged are
  modelled as `Int` (series values) and `Rat` (coordinates).
* `Intl.DateTimeFormat` timezone validation is an external runtime facility
  and is abstracted as a boolean predicate `validTz : String → Bool`.
-/

namespace EasyWeather

/-- An HTTP response as seen by `fetchRetry`: status plus (parsed) body. -/
structure Response (α : Type) where
  status : Nat
  body : α
deriving Repr, DecidableEq

/-- What one attempt of `fetch` yields: a response, or a thrown error
(network failure / abort), carrying its message. -/
inductive Outcome (α : Type) where
  | resp (r : Response α)
  | err (msg : String)
deriving Repr, DecidableEq

/-- Flag `res.ok` of the fetch API: status in [200, 299]. -/
def Response.ok (r : Response α) : Bool :=
  200 ≤ r.status && r.status ≤ 299

/-- Natural-number power used for `backoffMs * 2 ** attempt`. -/
def backoffDelay (backoffMs attempt : Nat) : Nat :=
  backoffMs * 2 ^ attempt

/--
The loop body of `fetchRetry` (`for (let attempt = 0; attempt <= retries;
attempt++)`), transcribed faithfully from the source.  `fuel` counts the
remaining iterations (`retries + 1 - attempt`); the returned list records
every backoff delay slept, in order.

Control flow of the source for one attempt:
* `fetch` yields a response `res` or throws;
* `if (!res.ok)`: when `res.status >= 500 && attempt < retries`, sleep
  `backoffMs * 2 ** attempt` and `continue`; otherwise
  `throw new Error("HTTP " + res.status)` — note this `throw` sits inside
  the `try`, so it is caught by the function's own `catch`;
* `catch (err)`: when `attempt < retries`, sleep the same backoff and
  `continue`; otherwise re-throw `err`.
-/
def fetchRetryGo (oracle : Nat → Outcome α) (retries backoffMs : Nat) :
    Nat → Nat → Except String (Response α) × List Nat
  | 0, _ => (Except.error "fetchRetry exhausted", [])
  | fuel + 1, attempt =>
    match oracle attempt with
    | Outcome.resp r =>
      if r.ok then (Except.ok r, [])
      else if 500 ≤ r.status ∧ attempt < retries then
        let rest := fetchRetryGo oracle retries backoffMs fuel (attempt + 1)
        (rest.1, backoffDelay backoffMs attempt :: rest.2)
      else
        -- `throw new Error("HTTP " + res.status)`, caught by the `catch`
        if attempt < retries then
          let rest := fetchRetryGo oracle retries backoffMs fuel (attempt + 1)
          (rest.1, backoffDelay backoffMs attempt :: rest.2)
        else (Except.error ("HTTP " ++ toString r.status), [])
    | Outcome.err m =>
      if attempt < retries then
        let rest := fetchRetryGo oracle retries backoffMs fuel (attempt + 1)
        (rest.1, backoffDelay backoffMs attempt :: rest.2)
      else (Except.error m, [])

/-- Function `fetchRetry(url, opts, retries, backoffMs)`: run the attempt loop from
`attempt = 0` with `retries + 1` iterations available.  Result plus the list
of slept backoff delays. -/
def fetchRetry (oracle : Nat → Outcome α) (retries backoffMs : Nat) :
    Except String (Response α) × List Nat :=
  fetchRetryGo oracle retries backoffMs (retries + 1) 0

/-- Just the result of `fetchRetry` (what the caller awaits). -/
def fetchResult (oracle : Nat → Outcome α) (retries backoffMs : Nat) :
    Except String (Response α) :=
  (fetchRetry oracle retries backoffMs).1

/-- The delays slept by `fetchRetry` across all its attempts. -/
def fetchDelays (oracle : Nat → Outcome α) (retries backoffMs : Nat) :
    List Nat :=
  (fetchRetry oracle retries backoffMs).2

/-! ## Data model (Open-Meteo shapes, from the route's type declarations) -/

/-- Shape `GeocodeResult`: one geocoding match. -/
structure GeocodeResult where
  name : String
  country : Option String := none
  admin1 : Option String := none
  latitude : Rat
  longitude : Rat
  timezone : Option String := none
deriving Repr, DecidableEq

/-- Shape `GeocodeSearchResponse`: body of the geocoding endpoint. -/
structure GeocodeSearchResponse where
  results : Option (List GeocodeResult) := none
deriving Repr, DecidableEq

/-- Shape `CurrentWeather`. -/
structure CurrentWeather where
  temperature : Int
  weathercode : Nat
  windspeed : Int
  time : String
deriving Repr, DecidableEq

/-- Shape `HourlyBlock`. -/
structure HourlyBlock where
  time : List String
  temperature_2m : Option (List Int) := none
  apparent_temperature : Option (List Int) := none
  relative_humidity_2m : Option (List Int) := none
  precipitation_probability : Option (List Int) := none
  weathercode : Option (List Nat) := none
deriving Repr, DecidableEq

/-- Shape `DailyBlock`.  The field `temperature_2m_min_alt` models the raw JSON
key `"temperature_2_ m_min"` — the known-malformed alternate key the route
reads via `dailyUnknown["temperature_2_ m_min"]`; `some xs` means the raw
payload carries that key holding the array `xs` (so `Array.isArray` is
true), `none` that it is absent. -/
structure DailyBlock where
  time : List String
  weathercode : Option (List Nat) := none
  temperature_2m_max : Option (List Int) := none
  temperature_2m_min : Option (List Int) := none
  sunrise : Option (List String) := none
  sunset : Option (List String) := none
  temperature_2m_min_alt : Option (List Int) := none
deriving Repr, DecidableEq

/-- Shape `WeatherResponse`: body of the forecast endpoint. -/
structure WeatherResponse where
  timezone : Option String := none
  current_weather : Option CurrentWeather := none
  hourly : Option HourlyBlock := none
  daily : Option DailyBlock := none
deriving Repr, DecidableEq

/-- Shape `AirQualityHourly`. -/
structure AirQualityHourly where
  time : List String
  european_aqi : Option (List Int) := none
  pm2_5 : Option (List Int) := none
deriving Repr, DecidableEq

/-- Shape `AirQualityResponse`: body of the air-quality endpoint. -/
structure AirQualityResponse where
  hourly : Option AirQualityHourly := none
deriving Repr, DecidableEq

/-- Shape `Place`: the resolved location carried into the payload. -/
structure Place where
  name : String
  country : Option String := none
  admin1 : Option String := none
  latitude : Rat
  longitude : Rat
  timezone : Option String := none
deriving Repr, DecidableEq

/-- The aligned "current" air-quality sample
(`{ european_aqi?: number; pm2_5?: number }`). -/
structure AqiCurrent where
  european_aqi : Option Int := none
  pm2_5 : Option Int := none
deriving Repr, DecidableEq

/-- The `air_quality` section of the payload. -/
structure AirQualityOut where
  european_aqi : List Int
  pm2_5 : List Int
  time : List String
  current : Option AqiCurrent
deriving Repr, DecidableEq

/-- Shape `ApiPayload`: the body of a successful (HTTP 200) response. -/
structure ApiPayload where
  place : Place
  timezone : String
  current_weather : Option CurrentWeather
  hourly : Option HourlyBlock
  daily : Option DailyBlock
  air_quality : AirQualityOut
deriving Repr, DecidableEq

/-- The HTTP result of the `GET` handler: a 200 with the payload, or the
502 with the structured `{ error, detail }` body. -/
inductive GetResult where
  | ok (payload : ApiPayload)
  | fail (error : String) (detail : String)
deriving Repr, DecidableEq

/-- HTTP status of a `GetResult` (200 on success, 502 on failure). -/
def GetResult.status : GetResult → Nat
  | GetResult.ok _ => 200
  | GetResult.fail _ _ => 502

/-- The query string of a request, as the handler reads it.
`city` is `searchParams.get("city")` (`none` when absent).  `coords` models
the guard `latParam !== null && lonParam !== null &&
!Number.isNaN(Number(latParam)) && !Number.isNaN(Number(lonParam))`:
`some (la, lo)` when both parameters are present and parse as numbers with
these values, `none` otherwise (the city path is then taken). -/
structure Query where
  city : Option String := none
  coords : Option (Rat × Rat) := none
deriving Repr, DecidableEq

/-! ## Utilities of the route -/

/-- Function `pickFirstResult(results)`. -/
def pickFirstResult : Option (List GeocodeResult) → Option GeocodeResult
  | none => none
  | some [] => none
  | some (r :: _) =>
    some { name := r.name, country := r.country, admin1 := r.admin1,
           latitude := r.latitude, longitude := r.longitude,
           timezone := r.timezone }

/-- Function `normalizeTimezone(tz)`: `"UTC"` for a missing, empty or `"auto"`
value; otherwise the value when the runtime validator accepts it
(`new Intl.DateTimeFormat(undefined, { timeZone: tz })` does not throw),
else `"UTC"`.  The validator is the abstract parameter `validTz`. -/
def normalizeTimezone (validTz : String → Bool) : Option String → String
  | none => "UTC"
  | some tz =>
    if tz = "" ∨ tz = "auto" then "UTC"
    else if validTz tz then tz else "UTC"

/-! ## The GET handler, factored into its phases -/

/-- JavaScript `String.prototype.trim()`: strip leading and trailing
whitespace characters. -/
def jsTrim (s : String) : String :=
  ⟨((s.data.dropWhile Char.isWhitespace).reverse.dropWhile
      Char.isWhitespace).reverse⟩

/-- Value `cityRaw`: `(searchParams.get("city") || "").trim()`. -/
def cityRaw (q : Query) : String :=
  jsTrim (q.city.getD "")

/-- Place resolution (handler section A/B): the coordinates path builds the
place directly (name `cityRaw || "My location"`); the city path geocodes
`cityRaw || "Stockholm"`, takes the first result, and on a swallowed fetch
error or zero matches falls back to the hardcoded Stockholm place. -/
def resolvePlace (q : Query)
    (geoResult : Except String GeocodeSearchResponse) : Place :=
  match q.coords with
  | some (la, lo) =>
    { name := if cityRaw q = "" then "My location" else cityRaw q,
      latitude := la, longitude := lo, timezone := none }
  | none =>
    let name := if cityRaw q = "" then "Stockholm" else cityRaw q
    let fromGeo : Option Place :=
      match geoResult with
      | Except.error _ => none
      | Except.ok geo =>
        (pickFirstResult geo.results).map (fun f =>
          { name := f.name, country := f.country, admin1 := f.admin1,
            latitude := f.latitude, longitude := f.longitude,
            timezone := f.timezone })
    match fromGeo with
    | some p => p
    | none =>
      { name := name, latitude := 593293/10000, longitude := 180686/10000,
        country := some "Sweden", timezone := none }

/-- The timezone the handler feeds into `normalizeTimezone`:
`(weather.timezone && weather.timezone !== "auto" ? weather.timezone :
undefined) || place.timezone` with JavaScript truthiness (the empty string
is falsy). -/
def selectTz (wtz ptz : Option String) : Option String :=
  match wtz with
  | some t => if t ≠ "" ∧ t ≠ "auto" then some t else ptz
  | none => ptz

/-- Value `resolvedTZ`: timezone preference order API → geocode → `"UTC"`. -/
def resolveTz (validTz : String → Bool) (place : Place)
    (weather : WeatherResponse) : String :=
  normalizeTimezone validTz (selectTz weather.timezone place.timezone)

/-- Value `aqHourly`: the defaults `{ time: [], european_aqi: [], pm2_5: [] }`,
overwritten on a successful air-quality fetch by
`{ time: hourly?.time ?? [], european_aqi: hourly?.european_aqi ?? [],
pm2_5: hourly?.pm2_5 ?? [] }`; a failure keeps the defaults. -/
def aqFromJson : Except String AirQualityResponse → AirQualityHourly
  | Except.error _ => { time := [], european_aqi := some [], pm2_5 := some [] }
  | Except.ok a =>
    { time := (a.hourly.map AirQualityHourly.time).getD [],
      european_aqi := some ((a.hourly.bind AirQualityHourly.european_aqi).getD []),
      pm2_5 := some ((a.hourly.bind AirQualityHourly.pm2_5).getD []) }

/-- The `aqiCurrent` alignment: when `cwTime` is truthy and the air-quality
time array is non-empty, `indexOf(cwTime)`; on a hit, the sample
`{ european_aqi: european_aqi?.[idx], pm2_5: pm2_5?.[idx] }`, else `null`. -/
def alignCurrent (cwTime : Option String) (aq : AirQualityHourly) :
    Option AqiCurrent :=
  match cwTime with
  | none => none
  | some t =>
    if t ≠ "" ∧ 0 < aq.time.length then
      match aq.time.findIdx? (fun s => s = t) with
      | some idx =>
        some { european_aqi := aq.european_aqi.bind (fun l => l.get? idx),
               pm2_5 := aq.pm2_5.bind (fun l => l.get? idx) }
      | none => none
    else none

/-- The daily field-name repair: when `weather.daily` exists and
`temperature_2m_min` is falsy (absent) while the raw malformed key
`"temperature_2_ m_min"` holds an array, copy that array in. -/
def repairDaily (d : DailyBlock) : DailyBlock :=
  if d.temperature_2m_min = none then
    match d.temperature_2m_min_alt with
    | some xs => { d with temperature_2m_min := some xs }
    | none => d
  else d

/-- Assembly of the 200 payload from the resolved place, the weather body
and the air-quality fetch result (the part of `GET` after the weather fetch
succeeded). -/
def buildPayload (validTz : String → Bool) (place : Place)
    (weather : WeatherResponse)
    (aqiRes : Except String AirQualityResponse) : ApiPayload :=
  { place := { place with timezone := some (resolveTz validTz place weather) },
    timezone := resolveTz validTz place weather,
    current_weather := weather.current_weather,
    hourly := weather.hourly,
    daily := weather.daily.map repairDaily,
    air_quality :=
      { european_aqi := ((aqFromJson aqiRes).european_aqi).getD [],
        pm2_5 := ((aqFromJson aqiRes).pm2_5).getD [],
        time := (aqFromJson aqiRes).time,
        current := alignCurrent (weather.current_weather.map CurrentWeather.time)
          (aqFromJson aqiRes) } }

/-- Step `res.json()` after a successful `fetchRetry`: the parsed body. -/
def jsonOf (e : Except String (Response α)) : Except String α :=
  e.map Response.body

/-- The `GET` handler.  The three oracles stand for the network behaviour
of the geocoding, weather and air-quality fetches; the route calls
`fetchRetry` with the default `retries = 3`, `backoffMs = 500` for geocoding
and weather, and `retries = 2` for air quality.  A weather-fetch failure
escapes to the outer catch and becomes the 502
`{ error: "Forecast API failed", detail }`; geocode and air-quality
failures are swallowed locally. -/
def GET (validTz : String → Bool) (q : Query)
    (geoOracle : Nat → Outcome GeocodeSearchResponse)
    (weatherOracle : Nat → Outcome WeatherResponse)
    (aqiOracle : Nat → Outcome AirQualityResponse) : GetResult :=
  let place := resolvePlace q (jsonOf (fetchResult geoOracle 3 500))
  match fetchResult weatherOracle 3 500 with
  | Except.error e => GetResult.fail "Forecast API failed" e
  | Except.ok resp =>
    GetResult.ok
      (buildPayload validTz place resp.body (jsonOf (fetchResult aqiOracle 2 500)))

/-! ## Lemmas about the retry loop -/

/-- An attempt outcome that the loop classifies as retryable-or-final
failure: a 5xx response, or a thrown network error. -/
def outcomeFails : Outcome α → Prop
  | Outcome.resp r => 500 ≤ r.status ∧ r.status ≤ 599
  | Outcome.err _ => True

/-- The message carried by the failure the loop raises for an outcome:
`"HTTP <status>"` for a response, the thrown message for an error. -/
def failMsg : Outcome α → String
  | Outcome.resp r => "HTTP " ++ toString r.status
  | Outcome.err m => m

theorem fetchRetryGo_ok (oracle : Nat → Outcome α) (retries backoffMs : Nat)
    (r : Response α) (hOk : oracle retries = Outcome.resp r) (hr : r.ok = true) :
    ∀ fuel attempt, attempt + fuel = retries + 1 → attempt ≤ retries →
      (∀ k, attempt ≤ k → k < retries →
        ∃ s, oracle k = Outcome.resp s ∧ 500 ≤ s.status ∧ s.status ≤ 599) →
      (fetchRetryGo oracle retries backoffMs fuel attempt).1 = Except.ok r := by
  intro fuel
  induction fuel with
  | zero => intro attempt hfa hle _; omega
  | succ fuel ih =>
    intro attempt hfa hle h5
    rcases Nat.lt_or_ge attempt retries with hlt | hge
    · obtain ⟨s, hs, h500, h599⟩ := h5 attempt le_rfl hlt
      have hsok : s.ok = false := by
        simp only [Response.ok, Bool.and_eq_false_iff, decide_eq_false_iff_not,
          not_le]
        omega
      simp only [fetchRetryGo, hs, hsok, Bool.false_eq_true, if_false,
        if_pos (And.intro h500 hlt)]
      exact ih (attempt + 1) (by omega) (by omega)
        (fun k hk1 hk2 => h5 k (by omega) hk2)
    · have heq : attempt = retries := Nat.le_antisymm hle hge
      subst heq
      simp only [fetchRetryGo, hOk, hr, if_true]

theorem fetchRetryGo_fail (oracle : Nat → Outcome α) (retries backoffMs : Nat) :
    ∀ fuel attempt, attempt + fuel = retries + 1 → attempt ≤ retries →
      (∀ k, attempt ≤ k → k ≤ retries → outcomeFails (oracle k)) →
      (fetchRetryGo oracle retries backoffMs fuel attempt).1 =
        Except.error (failMsg (oracle retries)) := by
  intro fuel
  induction fuel with
  | zero => intro attempt hfa hle _; omega
  | succ fuel ih =>
    intro attempt hfa hle hfails
    rcases Nat.lt_or_ge attempt retries with hlt | hge
    · have hthis := hfails attempt le_rfl (Nat.le_of_lt hlt)
      cases hor : oracle attempt with
      | resp s =>
        rw [hor] at hthis
        obtain ⟨h500, h599⟩ := hthis
        have hsok : s.ok = false := by
          simp only [Response.ok, Bool.and_eq_false_iff, decide_eq_false_iff_not,
            not_le]
          omega
        simp only [fetchRetryGo, hor, hsok, Bool.false_eq_true, if_false,
          if_pos (And.intro h500 hlt)]
        exact ih (attempt + 1) (by omega) (by omega)
          (fun k hk1 hk2 => hfails k (by omega) hk2)
      | err m =>
        simp only [fetchRetryGo, hor, if_pos hlt]
        exact ih (attempt + 1) (by omega) (by omega)
          (fun k hk1 hk2 => hfails k (by omega) hk2)
    · have heq : attempt = retries := Nat.le_antisymm hle hge
      subst heq
      have hthis := hfails attempt le_rfl le_rfl
      cases hor : oracle attempt with
      | resp s =>
        rw [hor] at hthis
        obtain ⟨h500, h599⟩ := hthis
        have hsok : s.ok = false := by
          simp only [Response.ok, Bool.and_eq_false_iff, decide_eq_false_iff_not,
            not_le]
          omega
        have hnot : ¬(500 ≤ s.status ∧ attempt < attempt) := by
          rintro ⟨-, h⟩; omega
        simp only [fetchRetryGo, hor, hsok, Bool.false_eq_true, if_false,
          if_neg hnot, if_neg (Nat.lt_irrefl attempt), failMsg]
      | err m =>
        simp only [fetchRetryGo, hor, if_neg (Nat.lt_irrefl attempt), failMsg]

theorem fetchRetryGo_not_ok (oracle : Nat → Outcome α) (retries backoffMs : Nat)
    (h : ∀ k, k ≤ retries → ∀ r, oracle k = Outcome.resp r → r.ok = false) :
    ∀ fuel attempt, attempt + fuel = retries + 1 → attempt ≤ retries →
      ∃ e, (fetchRetryGo oracle retries backoffMs fuel attempt).1 =
        Except.error e := by
  intro fuel
  induction fuel with
  | zero => intro attempt hfa hle; omega
  | succ fuel ih =>
    intro attempt hfa hle
    rcases Nat.lt_or_ge attempt retries with hlt | hge
    · cases hor : oracle attempt with
      | resp s =>
        have hsok : s.ok = false := h attempt hle s hor
        simp only [fetchRetryGo, hor, hsok, Bool.false_eq_true, if_false]
        split
        · exact ih (attempt + 1) (by omega) (by omega)
        · simp only [if_pos hlt]
          exact ih (attempt + 1) (by omega) (by omega)
      | err m =>
        simp only [fetchRetryGo, hor, if_pos hlt]
        exact ih (attempt + 1) (by omega) (by omega)
    · have heq : attempt = retries := Nat.le_antisymm hle hge
      subst heq
      cases hor : oracle attempt with
      | resp s =>
        have hsok : s.ok = false := h attempt le_rfl s hor
        have hnot : ¬(500 ≤ s.status ∧ attempt < attempt) := by
          rintro ⟨-, hcon⟩; omega
        simp only [fetchRetryGo, hor, hsok, Bool.false_eq_true, if_false,
          if_neg hnot, if_neg (Nat.lt_irrefl attempt)]
        exact ⟨_, rfl⟩
      | err m =>
        simp only [fetchRetryGo, hor, if_neg (Nat.lt_irrefl attempt)]
        exact ⟨_, rfl⟩

theorem delays_cons_spec (rest : List Nat) (backoffMs attempt retries : Nat)
    (hrest : ∀ k, k < rest.length →
      rest.get? k = some (backoffDelay backoffMs (attempt + 1 + k)))
    (hlen : rest.length ≤ retries - (attempt + 1)) (hlt : attempt < retries) :
    (∀ k, k < (backoffDelay backoffMs attempt :: rest).length →
      (backoffDelay backoffMs attempt :: rest).get? k =
        some (backoffDelay backoffMs (attempt + k))) ∧
    (backoffDelay backoffMs attempt :: rest).length ≤ retries - attempt := by
  constructor
  · intro k hk
    match k with
    | 0 => simp
    | k + 1 =>
      rw [List.get?_cons_succ]
      have hklen : k < rest.length := by
        simp only [List.length_cons] at hk
        omega
      have harg : attempt + 1 + k = attempt + (k + 1) := by omega
      rw [hrest k hklen, harg]
  · simp only [List.length_cons]
    omega

theorem fetchRetryGo_delays (oracle : Nat → Outcome α)
    (retries backoffMs : Nat) :
    ∀ fuel attempt,
      (∀ k, k < ((fetchRetryGo oracle retries backoffMs fuel attempt).2).length →
        ((fetchRetryGo oracle retries backoffMs fuel attempt).2).get? k =
          some (backoffDelay backoffMs (attempt + k))) ∧
      ((fetchRetryGo oracle retries backoffMs fuel attempt).2).length ≤
        retries - attempt := by
  intro fuel
  induction fuel with
  | zero =>
    intro attempt
    constructor
    · intro k hk
      simp [fetchRetryGo] at hk
    · simp [fetchRetryGo]
  | succ fuel ih =>
    intro attempt
    have ihnext := ih (attempt + 1)
    cases hor : oracle attempt with
    | resp s =>
      by_cases hsok : s.ok = true
      · constructor
        · intro k hk
          simp [fetchRetryGo, hor, hsok] at hk
        · simp [fetchRetryGo, hor, hsok]
      · rw [Bool.not_eq_true] at hsok
        by_cases hretry : 500 ≤ s.status ∧ attempt < retries
        · simp only [fetchRetryGo, hor, hsok, Bool.false_eq_true, if_false,
            if_pos hretry]
          exact delays_cons_spec _ _ _ _ ihnext.1 ihnext.2 hretry.2
        · by_cases hlt : attempt < retries
          · simp only [fetchRetryGo, hor, hsok, Bool.false_eq_true, if_false,
              if_neg hretry, if_pos hlt]
            exact delays_cons_spec _ _ _ _ ihnext.1 ihnext.2 hlt
          · constructor
            · intro k hk
              simp [fetchRetryGo, hor, hsok, hretry, hlt] at hk
            · simp [fetchRetryGo, hor, hsok, hretry, hlt]
    | err m =>
      by_cases hlt : attempt < retries
      · simp only [fetchRetryGo, hor, if_pos hlt]
        exact delays_cons_spec _ _ _ _ ihnext.1 ihnext.2 hlt
      · constructor
        · intro k hk
          simp [fetchRetryGo, hor, hlt] at hk
        · simp [fetchRetryGo, hor, hlt]

/-! ## Concrete oracles used to exercise the retry loop -/

/-- First attempt observes HTTP 404, every later attempt HTTP 200. -/
def oracle404then200 : Nat → Outcome Nat := fun n =>
  if n = 0 then Outcome.resp { status := 404, body := 5 }
  else Outcome.resp { status := 200, body := 7 }

/-- Every attempt observes HTTP 404. -/
def oracle404always : Nat → Outcome Nat := fun _ =>
  Outcome.resp { status := 404, body := 0 }

/-- Attempts 0–2 observe HTTP 503, the fourth attempt HTTP 200. -/
def oracle5xxThenOk : Nat → Outcome Nat := fun n =>
  if n < 3 then Outcome.resp { status := 503, body := 0 }
  else Outcome.resp { status := 200, body := 9 }

/-- Every attempt observes HTTP 503. -/
def oracle503always : Nat → Outcome Nat := fun _ =>
  Outcome.resp { status := 503, body := 0 }

/-- Every attempt throws a network error. -/
def oracleNetDown : Nat → Outcome WeatherResponse := fun _ =>
  Outcome.err "fetch failed"

/-! ## Claim theorems: the retry loop -/

/-- Claim C2 (code bug in the source): the claim says a 4xx response makes
`fetchRetry` raise a failure immediately with no further attempt.  The code
does not: the `throw new Error("HTTP " + status)` for a non-5xx status sits
inside the `try` block, so the function's own `catch` receives it and —
when attempts remain — sleeps the backoff and retries.  Concretely, with
the default budget (`retries = 3`): a 404 on attempt 0 followed by a 200 on
attempt 1 returns the 200 response after sleeping once (claim: immediate
failure, no second attempt), and a 404 on every attempt sleeps three times
and fails only after all four attempts. -/
theorem fetchRetry_4xx_is_retried :
    fetchRetry oracle404then200 3 500 =
      (Except.ok { status := 200, body := 7 }, [500]) ∧
    fetchRetry oracle404always 3 500 =
      (Except.error "HTTP 404", [500, 1000, 2000]) :=
  ⟨rfl, rfl⟩

/-- Claim C3: a run of 5xx responses on every attempt before the last allowed
one, followed by a success on that last attempt, returns the successful
response; if all `maxRetries + 1` attempts fail with 5xx responses or
thrown network errors, `fetchRetry` raises a failure carrying the last
observed status (`"HTTP <status>"`) or the last error message. -/
theorem fetchRetry_exhaustion (oracle : Nat → Outcome α)
    (retries backoffMs : Nat) :
    (∀ r, (∀ k, k < retries →
        ∃ s, oracle k = Outcome.resp s ∧ 500 ≤ s.status ∧ s.status ≤ 599) →
      oracle retries = Outcome.resp r → r.ok = true →
      fetchResult oracle retries backoffMs = Except.ok r) ∧
    ((∀ k, k ≤ retries → outcomeFails (oracle k)) →
      fetchResult oracle retries backoffMs =
        Except.error (failMsg (oracle retries))) := by
  constructor
  · intro r h5 hOk hr
    exact fetchRetryGo_ok oracle retries backoffMs r hOk hr (retries + 1) 0
      (by omega) (by omega) (fun k _ hk => h5 k hk)
  · intro hfails
    exact fetchRetryGo_fail oracle retries backoffMs (retries + 1) 0
      (by omega) (by omega) (fun k _ hk => hfails k hk)

theorem fetchRetry_exhaustion_witness :
    fetchResult oracle5xxThenOk 3 500 =
      Except.ok { status := 200, body := 9 } ∧
    fetchResult oracle503always 3 500 = Except.error "HTTP 503" := by
  constructor
  · exact (fetchRetry_exhaustion oracle5xxThenOk 3 500).1
      { status := 200, body := 9 }
      (fun k hk =>
        ⟨{ status := 503, body := 0 }, by simp [oracle5xxThenOk, hk],
          by decide, by decide⟩)
      (by simp [oracle5xxThenOk]) rfl
  · exact (fetchRetry_exhaustion oracle503always 3 500).2
      (fun k _ => ⟨by decide, by decide⟩)

/-- Claim C9: within one `fetchRetry` call with base delay `backoffMs`, the
delay slept before retry attempt `k` (0-indexed retries) is exactly
`backoffMs * 2 ^ k` — the exponential sequence `backoffMs, 2*backoffMs,
4*backoffMs, …` — and at most `retries` additional attempts (hence at most
`retries` sleeps) happen after the first attempt. -/
theorem fetchRetry_backoff_schedule (oracle : Nat → Outcome α)
    (retries backoffMs : Nat) :
    (∀ k, k < (fetchDelays oracle retries backoffMs).length →
      (fetchDelays oracle retries backoffMs).get? k =
        some (backoffMs * 2 ^ k)) ∧
    (fetchDelays oracle retries backoffMs).length ≤ retries := by
  have h := fetchRetryGo_delays oracle retries backoffMs (retries + 1) 0
  constructor
  · intro k hk
    have hg := h.1 k hk
    simpa [fetchDelays, fetchRetry, backoffDelay] using hg
  · simpa [fetchDelays, fetchRetry] using h.2

theorem fetchRetry_backoff_schedule_witness :
    (fetchDelays oracle503always 3 500).get? 1 = some (500 * 2 ^ 1) ∧
    (fetchDelays oracle503always 3 500).length ≤ 3 :=
  ⟨(fetchRetry_backoff_schedule oracle503always 3 500).1 1 (by decide),
   (fetchRetry_backoff_schedule oracle503always 3 500).2⟩

/-! ## Lemmas about the handler -/

theorem GET_eq_of_weather_ok (validTz : String → Bool) (q : Query)
    (geoOracle : Nat → Outcome GeocodeSearchResponse)
    (weatherOracle : Nat → Outcome WeatherResponse)
    (aqiOracle : Nat → Outcome AirQualityResponse) (resp : Response WeatherResponse)
    (hW : fetchResult weatherOracle 3 500 = Except.ok resp) :
    GET validTz q geoOracle weatherOracle aqiOracle =
      GetResult.ok
        (buildPayload validTz
          (resolvePlace q (jsonOf (fetchResult geoOracle 3 500)))
          resp.body (jsonOf (fetchResult aqiOracle 2 500))) := by
  simp only [GET, hW]

theorem GET_eq_of_weather_error (validTz : String → Bool) (q : Query)
    (geoOracle : Nat → Outcome GeocodeSearchResponse)
    (weatherOracle : Nat → Outcome WeatherResponse)
    (aqiOracle : Nat → Outcome AirQualityResponse) (e : String)
    (hW : fetchResult weatherOracle 3 500 = Except.error e) :
    GET validTz q geoOracle weatherOracle aqiOracle =
      GetResult.fail "Forecast API failed" e := by
  simp only [GET, hW]

theorem alignCurrent_empty (c : Option String) :
    alignCurrent c { time := [], european_aqi := some [], pm2_5 := some [] } =
      none := by
  cases c <;> simp [alignCurrent]

theorem aqFromJson_error (e : String) :
    aqFromJson (Except.error e) =
      { time := [], european_aqi := some [], pm2_5 := some [] } := rfl

/-! ## Claim theorems: the handler -/

/-- Claim C8: if the weather fetch fails after exhausting its retries, the
endpoint returns HTTP 502 with the structured body
`{ error: "Forecast API failed", detail: <failure message> }`, and no
partial weather payload (the 502 body carries only the two strings). -/
theorem weather_failure_becomes_502 (validTz : String → Bool) (q : Query)
    (geoOracle : Nat → Outcome GeocodeSearchResponse)
    (weatherOracle : Nat → Outcome WeatherResponse)
    (aqiOracle : Nat → Outcome AirQualityResponse) (e : String)
    (hW : fetchResult weatherOracle 3 500 = Except.error e) :
    GET validTz q geoOracle weatherOracle aqiOracle =
      GetResult.fail "Forecast API failed" e ∧
    (GET validTz q geoOracle weatherOracle aqiOracle).status = 502 := by
  have h := GET_eq_of_weather_error validTz q geoOracle weatherOracle
    aqiOracle e hW
  exact ⟨h, by rw [h]; rfl⟩

theorem weather_failure_becomes_502_witness :
    GET (fun s => s == "UTC") { city := none, coords := none }
        (fun _ => Outcome.err "geo down") oracleNetDown
        (fun _ => Outcome.err "aqi down") =
      GetResult.fail "Forecast API failed" "fetch failed" ∧
    (GET (fun s => s == "UTC") { city := none, coords := none }
        (fun _ => Outcome.err "geo down") oracleNetDown
        (fun _ => Outcome.err "aqi down")).status = 502 :=
  weather_failure_becomes_502 (fun s => s == "UTC")
    { city := none, coords := none } (fun _ => Outcome.err "geo down")
    oracleNetDown (fun _ => Outcome.err "aqi down") "fetch failed" rfl

/-- Claim C5: if every attempt of the air-quality call fails (no attempt
produces an `ok` response) while the weather call succeeds, the endpoint
still returns HTTP 200 with `air_quality = { european_aqi: [], pm2_5: [],
time: [], current: null }`, and `current_weather` / `hourly` / `daily`
taken from the weather response (daily after the key repair); the
air-quality failure never aborts the request. -/
theorem air_quality_failure_isolated (validTz : String → Bool) (q : Query)
    (geoOracle : Nat → Outcome GeocodeSearchResponse)
    (weatherOracle : Nat → Outcome WeatherResponse)
    (aqiOracle : Nat → Outcome AirQualityResponse)
    (resp : Response WeatherResponse)
    (hA : ∀ k, k ≤ 2 → ∀ r, aqiOracle k = Outcome.resp r → r.ok = false)
    (hW : fetchResult weatherOracle 3 500 = Except.ok resp) :
    ∃ p, GET validTz q geoOracle weatherOracle aqiOracle = GetResult.ok p ∧
      (GET validTz q geoOracle weatherOracle aqiOracle).status = 200 ∧
      p.air_quality =
        { european_aqi := [], pm2_5 := [], time := [], current := none } ∧
      p.current_weather = resp.body.current_weather ∧
      p.hourly = resp.body.hourly ∧
      p.daily = resp.body.daily.map repairDaily := by
  obtain ⟨e, he⟩ := fetchRetryGo_not_ok aqiOracle 2 500 hA 3 0
    (by omega) (by omega)
  have heA : fetchResult aqiOracle 2 500 = Except.error e := he
  have hGET := GET_eq_of_weather_ok validTz q geoOracle weatherOracle
    aqiOracle resp hW
  have hjson : jsonOf (fetchResult aqiOracle 2 500) = Except.error e := by
    rw [jsonOf, heA]
    rfl
  refine ⟨_, hGET, by rw [hGET]; rfl, ?_, rfl, rfl, rfl⟩
  rw [hjson]
  simp only [buildPayload, aqFromJson_error, alignCurrent_empty]
  rfl

theorem air_quality_failure_isolated_witness :
    ∃ p, GET (fun s => s == "UTC") { city := none, coords := none }
        (fun _ => Outcome.err "geo down")
        (fun _ => Outcome.resp { status := 200, body := {} })
        (fun _ => Outcome.err "aqi down") = GetResult.ok p ∧
      (GET (fun s => s == "UTC") { city := none, coords := none }
        (fun _ => Outcome.err "geo down")
        (fun _ => Outcome.resp { status := 200, body := {} })
        (fun _ => Outcome.err "aqi down")).status = 200 ∧
      p.air_quality =
        { european_aqi := [], pm2_5 := [], time := [], current := none } ∧
      p.current_weather =
        ({} : WeatherResponse).current_weather ∧
      p.hourly = ({} : WeatherResponse).hourly ∧
      p.daily = ({} : WeatherResponse).daily.map repairDaily :=
  air_quality_failure_isolated (fun s => s == "UTC")
    { city := none, coords := none } (fun _ => Outcome.err "geo down")
    (fun _ => Outcome.resp { status := 200, body := {} })
    (fun _ => Outcome.err "aqi down")
    { status := 200, body := {} }
    (fun _ _ _ h => absurd h (by simp)) rfl

/-- The geocode step produced nothing usable: the fetch (or `json()`)
threw, or `results` held zero matches so `pickFirstResult` gave `null`. -/
def geoNoMatch (g : Except String GeocodeSearchResponse) : Prop :=
  (∃ e, g = Except.error e) ∨
  (∃ gr, g = Except.ok gr ∧ pickFirstResult gr.results = none)

theorem resolvePlace_fallback (q : Query)
    (g : Except String GeocodeSearchResponse) (hc : q.coords = none)
    (hg : geoNoMatch g) :
    resolvePlace q g =
      { name := if cityRaw q = "" then "Stockholm" else cityRaw q,
        latitude := 593293/10000, longitude := 180686/10000,
        country := some "Sweden", timezone := none } := by
  rcases hg with ⟨e, he⟩ | ⟨gr, hgr, hpick⟩
  · subst he
    simp [resolvePlace, hc]
  · subst hgr
    simp [resolvePlace, hc, hpick]

/-- Claim C6: if geocoding returns zero results or fails after its retries,
the endpoint does not error out: it proceeds with the hardcoded default
place (latitude 59.3293, longitude 18.0686) and — the weather fetch
succeeding — returns a 200 response anchored at those coordinates. -/
theorem geocode_fallback_default_place (validTz : String → Bool) (q : Query)
    (geoOracle : Nat → Outcome GeocodeSearchResponse)
    (weatherOracle : Nat → Outcome WeatherResponse)
    (aqiOracle : Nat → Outcome AirQualityResponse)
    (resp : Response WeatherResponse)
    (hc : q.coords = none)
    (hg : geoNoMatch (jsonOf (fetchResult geoOracle 3 500)))
    (hW : fetchResult weatherOracle 3 500 = Except.ok resp) :
    ∃ p, GET validTz q geoOracle weatherOracle aqiOracle = GetResult.ok p ∧
      (GET validTz q geoOracle weatherOracle aqiOracle).status = 200 ∧
      p.place.latitude = 593293/10000 ∧ p.place.longitude = 180686/10000 := by
  have hGET := GET_eq_of_weather_ok validTz q geoOracle weatherOracle
    aqiOracle resp hW
  refine ⟨_, hGET, by rw [hGET]; rfl, ?_, ?_⟩ <;>
    rw [resolvePlace_fallback q _ hc hg] <;>
    simp [buildPayload]

theorem geocode_fallback_default_place_witness :
    ∃ p, GET (fun s => s == "UTC") { city := some "Atlantis", coords := none }
        (fun _ => Outcome.resp { status := 200, body := { results := some [] } })
        (fun _ => Outcome.resp { status := 200, body := {} })
        (fun _ => Outcome.err "aqi down") = GetResult.ok p ∧
      (GET (fun s => s == "UTC") { city := some "Atlantis", coords := none }
        (fun _ => Outcome.resp { status := 200, body := { results := some [] } })
        (fun _ => Outcome.resp { status := 200, body := {} })
        (fun _ => Outcome.err "aqi down")).status = 200 ∧
      p.place.latitude = 593293/10000 ∧ p.place.longitude = 180686/10000 :=
  geocode_fallback_default_place (fun s => s == "UTC")
    { city := some "Atlantis", coords := none }
    (fun _ => Outcome.resp { status := 200, body := { results := some [] } })
    (fun _ => Outcome.resp { status := 200, body := {} })
    (fun _ => Outcome.err "aqi down")
    { status := 200, body := {} } rfl
    (Or.inr ⟨{ results := some [] }, rfl, rfl⟩) rfl

/-- Claim C7: if the upstream daily block lacks `temperature_2m_min` but the
raw payload carries the known-malformed key `"temperature_2_ m_min"`
holding an array, the handler copies that array into
`daily.temperature_2m_min` before assembling the payload, and the request
still succeeds with HTTP 200. -/
theorem daily_min_key_repair (validTz : String → Bool) (q : Query)
    (geoOracle : Nat → Outcome GeocodeSearchResponse)
    (weatherOracle : Nat → Outcome WeatherResponse)
    (aqiOracle : Nat → Outcome AirQualityResponse)
    (resp : Response WeatherResponse) (d : DailyBlock) (xs : List Int)
    (hW : fetchResult weatherOracle 3 500 = Except.ok resp)
    (hd : resp.body.daily = some d)
    (hmin : d.temperature_2m_min = none)
    (halt : d.temperature_2m_min_alt = some xs) :
    ∃ p, GET validTz q geoOracle weatherOracle aqiOracle = GetResult.ok p ∧
      (GET validTz q geoOracle weatherOracle aqiOracle).status = 200 ∧
      p.daily = some { d with temperature_2m_min := some xs } := by
  have hGET := GET_eq_of_weather_ok validTz q geoOracle weatherOracle
    aqiOracle resp hW
  refine ⟨_, hGET, by rw [hGET]; rfl, ?_⟩
  simp [buildPayload, hd, repairDaily, hmin, halt]

/-- A daily block whose raw payload has only the malformed
`"temperature_2_ m_min"` key. -/
def dailyMissingMin : DailyBlock :=
  { time := ["2024-01-01"], temperature_2m_min_alt := some [-3] }

/-- A weather body carrying `dailyMissingMin`. -/
def weatherMissingMin : WeatherResponse :=
  { daily := some dailyMissingMin }

theorem daily_min_key_repair_witness :
    ∃ p, GET (fun s => s == "UTC") { city := none, coords := none }
        (fun _ => Outcome.err "geo down")
        (fun _ => Outcome.resp { status := 200, body := weatherMissingMin })
        (fun _ => Outcome.err "aqi down") = GetResult.ok p ∧
      (GET (fun s => s == "UTC") { city := none, coords := none }
        (fun _ => Outcome.err "geo down")
        (fun _ => Outcome.resp { status := 200, body := weatherMissingMin })
        (fun _ => Outcome.err "aqi down")).status = 200 ∧
      p.daily = some { dailyMissingMin with temperature_2m_min := some [-3] } :=
  daily_min_key_repair (fun s => s == "UTC") { city := none, coords := none }
    (fun _ => Outcome.err "geo down")
    (fun _ => Outcome.resp { status := 200, body := weatherMissingMin })
    (fun _ => Outcome.err "aqi down")
    { status := 200, body := weatherMissingMin }
    dailyMissingMin [-3] rfl rfl rfl rfl

/-- Observation helper: the `place.name` carried by a handler result. -/
def resultPlaceName : GetResult → Option String
  | GetResult.ok p => some p.place.name
  | GetResult.fail _ _ => none

/-- Claim C10 (counterexample): the claim says the fallback place keeps the
caller's original city query string as `place.name`, defaulting to
`"Stockholm"` only when the query was empty.  A whitespace-only query
refutes it: the handler trims the query first, so `city = " "` — a
non-empty query string — still yields `place.name = "Stockholm"` (and a
padded query like `" Paris "` would be stored trimmed, not verbatim). -/
theorem fallback_name_whitespace_counterexample :
    resultPlaceName (GET (fun s => s == "UTC")
        { city := some " ", coords := none }
        (fun _ => Outcome.err "geo down")
        (fun _ => Outcome.resp { status := 200, body := {} })
        (fun _ => Outcome.err "aqi down")) = some "Stockholm" ∧
    " " ≠ "" :=
  ⟨rfl, by decide⟩

/-- Claim C10 (amended): when the resolver falls back to the default place
(zero geocode matches or geocoding failure), the returned place keeps the
caller's *trimmed* city query as `place.name` — defaulting to
`"Stockholm"` when the trimmed query is empty (the query was absent, empty
or whitespace-only) — while carrying the default Stockholm coordinates and
country `"Sweden"`, so an arbitrary unresolvable query name is paired with
the default coordinates. -/
theorem fallback_place_keeps_trimmed_query (validTz : String → Bool)
    (q : Query) (geoOracle : Nat → Outcome GeocodeSearchResponse)
    (weatherOracle : Nat → Outcome WeatherResponse)
    (aqiOracle : Nat → Outcome AirQualityResponse)
    (resp : Response WeatherResponse)
    (hc : q.coords = none)
    (hg : geoNoMatch (jsonOf (fetchResult geoOracle 3 500)))
    (hW : fetchResult weatherOracle 3 500 = Except.ok resp) :
    ∃ p, GET validTz q geoOracle weatherOracle aqiOracle = GetResult.ok p ∧
      p.place.name = (if cityRaw q = "" then "Stockholm" else cityRaw q) ∧
      p.place.latitude = 593293/10000 ∧ p.place.longitude = 180686/10000 ∧
      p.place.country = some "Sweden" := by
  have hGET := GET_eq_of_weather_ok validTz q geoOracle weatherOracle
    aqiOracle resp hW
  refine ⟨_, hGET, ?_, ?_, ?_, ?_⟩ <;>
    rw [resolvePlace_fallback q _ hc hg] <;>
    simp [buildPayload]

theorem fallback_place_keeps_trimmed_query_witness :
    ∃ p, GET (fun s => s == "UTC") { city := some " El Dorado ", coords := none }
        (fun _ => Outcome.err "geo down")
        (fun _ => Outcome.resp { status := 200, body := {} })
        (fun _ => Outcome.err "aqi down") = GetResult.ok p ∧
      p.place.name = (if cityRaw { city := some " El Dorado ", coords := none } = ""
        then "Stockholm" else cityRaw { city := some " El Dorado ", coords := none }) ∧
      p.place.latitude = 593293/10000 ∧ p.place.longitude = 180686/10000 ∧
      p.place.country = some "Sweden" :=
  fallback_place_keeps_trimmed_query (fun s => s == "UTC")
    { city := some " El Dorado ", coords := none }
    (fun _ => Outcome.err "geo down")
    (fun _ => Outcome.resp { status := 200, body := {} })
    (fun _ => Outcome.err "aqi down")
    { status := 200, body := {} } rfl
    (Or.inl ⟨"geo down", rfl⟩) rfl

/-! ## Timezone normalization lemmas -/

/-- A timezone candidate that cannot survive normalization: absent, empty,
the literal `"auto"`, or rejected by the validator. -/
def tzBad (validTz : String → Bool) : Option String → Prop
  | none => True
  | some t => t = "" ∨ t = "auto" ∨ validTz t = false

theorem normalizeTimezone_valid (validTz : String → Bool)
    (hUTC : validTz "UTC" = true) (o : Option String) :
    normalizeTimezone validTz o ≠ "" ∧ normalizeTimezone validTz o ≠ "auto" ∧
    validTz (normalizeTimezone validTz o) = true := by
  have hne : ("UTC" : String) ≠ "" ∧ ("UTC" : String) ≠ "auto" := by decide
  cases o with
  | none => exact ⟨hne.1, hne.2, hUTC⟩
  | some t =>
    simp only [normalizeTimezone]
    by_cases h1 : t = "" ∨ t = "auto"
    · rw [if_pos h1]
      exact ⟨hne.1, hne.2, hUTC⟩
    · rw [if_neg h1]
      push_neg at h1
      by_cases h2 : validTz t = true
      · rw [if_pos h2]
        exact ⟨h1.1, h1.2, h2⟩
      · rw [if_neg h2]
        exact ⟨hne.1, hne.2, hUTC⟩

theorem normalizeTimezone_of_bad (validTz : String → Bool) (o : Option String)
    (h : tzBad validTz o) : normalizeTimezone validTz o = "UTC" := by
  cases o with
  | none => rfl
  | some t =>
    simp only [tzBad] at h
    simp only [normalizeTimezone]
    rcases h with h1 | h1 | h1
    · rw [if_pos (Or.inl h1)]
    · rw [if_pos (Or.inr h1)]
    · by_cases h2 : t = "" ∨ t = "auto"
      · rw [if_pos h2]
      · rw [if_neg h2, if_neg (by simp [h1])]

theorem selectTz_of_bad (validTz : String → Bool) (w p : Option String)
    (hw : tzBad validTz w) (hp : tzBad validTz p) :
    tzBad validTz (selectTz w p) := by
  cases w with
  | none => simpa [selectTz] using hp
  | some t =>
    simp only [tzBad] at hw
    simp only [selectTz]
    by_cases hc : t ≠ "" ∧ t ≠ "auto"
    · rw [if_pos hc]
      simp only [tzBad]
      rcases hw with h1 | h1 | h1
      · exact absurd h1 hc.1
      · exact absurd h1 hc.2
      · exact Or.inr (Or.inr h1)
    · rw [if_neg hc]
      exact hp

/-- Claim C1: every 200 response carries a `timezone` (duplicated at
`place.timezone`) that is non-empty, never the literal `"auto"`, and
accepted by the runtime validator; and whenever the upstream weather
response reports `"auto"`, an empty, an absent or an invalid zone while the
geocoded place also has no valid zone, the emitted timezone is `"UTC"`. -/
theorem forecast_timezone_invariant (validTz : String → Bool) (q : Query)
    (geoOracle : Nat → Outcome GeocodeSearchResponse)
    (weatherOracle : Nat → Outcome WeatherResponse)
    (aqiOracle : Nat → Outcome AirQualityResponse)
    (hUTC : validTz "UTC" = true) :
    (∀ p, GET validTz q geoOracle weatherOracle aqiOracle = GetResult.ok p →
      p.timezone ≠ "" ∧ p.timezone ≠ "auto" ∧ validTz p.timezone = true ∧
      p.place.timezone = some p.timezone) ∧
    (∀ p resp,
      GET validTz q geoOracle weatherOracle aqiOracle = GetResult.ok p →
      fetchResult weatherOracle 3 500 = Except.ok resp →
      tzBad validTz resp.body.timezone →
      tzBad validTz
        (resolvePlace q (jsonOf (fetchResult geoOracle 3 500))).timezone →
      p.timezone = "UTC") := by
  constructor
  · intro p hp
    cases hW : fetchResult weatherOracle 3 500 with
    | error e =>
      rw [GET_eq_of_weather_error validTz q geoOracle weatherOracle
        aqiOracle e hW] at hp
      exact absurd hp (by simp)
    | ok resp =>
      rw [GET_eq_of_weather_ok validTz q geoOracle weatherOracle
        aqiOracle resp hW] at hp
      simp only [GetResult.ok.injEq] at hp
      subst hp
      have h := normalizeTimezone_valid validTz hUTC
        (selectTz resp.body.timezone
          (resolvePlace q (jsonOf (fetchResult geoOracle 3 500))).timezone)
      exact ⟨h.1, h.2.1, h.2.2, rfl⟩
  · intro p resp hp hW hbadW hbadP
    rw [GET_eq_of_weather_ok validTz q geoOracle weatherOracle
      aqiOracle resp hW] at hp
    simp only [GetResult.ok.injEq] at hp
    subst hp
    exact normalizeTimezone_of_bad validTz _
      (selectTz_of_bad validTz _ _ hbadW hbadP)

/-- A validator accepting only `"UTC"` and Stockholm's zone. -/
def validTzSample : String → Bool := fun s =>
  s == "UTC" || s == "Europe/Stockholm"

/-- An empty query (no `city`, no usable coordinates). -/
def qEmpty : Query := {}

/-- A geocoding fetch that always throws. -/
def geoDown : Nat → Outcome GeocodeSearchResponse := fun _ =>
  Outcome.err "geo down"

/-- A weather fetch that immediately returns an empty body. -/
def weatherEmptyOk : Nat → Outcome WeatherResponse := fun _ =>
  Outcome.resp { status := 200, body := {} }

/-- An air-quality fetch that always throws. -/
def aqiDown : Nat → Outcome AirQualityResponse := fun _ =>
  Outcome.err "aqi down"

/-- The payload produced by `qEmpty`/`geoDown`/`weatherEmptyOk`/`aqiDown`. -/
def utcPayload : ApiPayload :=
  { place := { name := "Stockholm", country := some "Sweden", admin1 := none,
               latitude := 593293/10000, longitude := 180686/10000,
               timezone := some "UTC" },
    timezone := "UTC",
    current_weather := none, hourly := none, daily := none,
    air_quality :=
      { european_aqi := [], pm2_5 := [], time := [], current := none } }

theorem forecast_timezone_invariant_witness :
    (utcPayload.timezone ≠ "" ∧ utcPayload.timezone ≠ "auto" ∧
      validTzSample utcPayload.timezone = true ∧
      utcPayload.place.timezone = some utcPayload.timezone) ∧
    utcPayload.timezone = "UTC" :=
  ⟨(forecast_timezone_invariant validTzSample qEmpty geoDown weatherEmptyOk
      aqiDown rfl).1 utcPayload rfl,
   (forecast_timezone_invariant validTzSample qEmpty geoDown weatherEmptyOk
      aqiDown rfl).2 utcPayload { status := 200, body := {} } rfl rfl
      trivial trivial⟩

/-! ## Air-quality alignment lemmas -/

theorem findIdx?_of_first {α : Type} (p : α → Bool) :
    ∀ (l : List α) (i : Nat) (a : α), l.get? i = some a → p a = true →
      (∀ j b, j < i → l.get? j = some b → p b = false) →
      l.findIdx? p = some i := by
  intro l
  induction l with
  | nil => intro i a h; simp at h
  | cons x xs ih =>
    intro i a hget hpa hbefore
    cases i with
    | zero =>
      simp only [List.get?_cons_zero, Option.some.injEq] at hget
      subst hget
      simp [List.findIdx?_cons, hpa]
    | succ i =>
      have hx : p x = false := hbefore 0 x (Nat.succ_pos i) rfl
      rw [List.get?_cons_succ] at hget
      have hrest := ih i a hget hpa
        (fun j b hj hb => hbefore (j + 1) b (by omega)
          (by rwa [List.get?_cons_succ]))
      simp [List.findIdx?_cons, hx, hrest]

theorem findIdx?_of_none {α : Type} (p : α → Bool) :
    ∀ l : List α, (∀ b ∈ l, p b = false) → l.findIdx? p = none := by
  intro l
  induction l with
  | nil => intro h; rfl
  | cons x xs ih =>
    intro h
    have hx : p x = false := h x (List.mem_cons_self x xs)
    have hrest := ih (fun b hb => h b (List.mem_cons_of_mem x hb))
    simp [List.findIdx?_cons, hx, hrest]

/-- Observation helper: the `air_quality.current` of a handler result. -/
def resultAqiCurrent : GetResult → Option (Option AqiCurrent)
  | GetResult.ok p => some p.air_quality.current
  | GetResult.fail _ _ => none

/-- Weather body whose `current_weather.time` is the empty string. -/
def weatherEmptyTime : WeatherResponse :=
  { current_weather := some { temperature := 0, weathercode := 0,
                              windspeed := 0, time := "" } }

/-- Air-quality body whose hourly `time` array contains the empty string
at index 0. -/
def aqiEmptyTimeBody : AirQualityResponse :=
  { hourly := some { time := [""], european_aqi := some [7],
                     pm2_5 := some [3] } }

/-- Weather body whose `current_weather.time` is `"x"`. -/
def weatherDupTime : WeatherResponse :=
  { current_weather := some { temperature := 0, weathercode := 0,
                              windspeed := 0, time := "x" } }

/-- Air-quality body whose hourly `time` array holds `"x"` twice, with
different sample values at the two indices. -/
def aqiDupBody : AirQualityResponse :=
  { hourly := some { time := ["x", "x"], european_aqi := some [1, 2],
                     pm2_5 := some [5, 6] } }

/-- Claim C4 (counterexample): the claim — "if the array contains an entry
exactly equal to `current_weather.time` at some index `i`, then
`air_quality.current` equals the values at index `i`" — fails on the code
at two concrete inputs.  (1) With `current_weather.time = ""` and `""`
present at index 0 of the air-quality `time` array, the handler emits
`current = null`, because the JavaScript truthiness guard `if (cwTime &&
…)` treats the empty string as absent.  (2) With the matching timestamp
`"x"` at both indices 0 and 1, `current` carries the values of index 0
(`indexOf` takes the first hit), not those of index 1 — yet index 1 also
satisfies "an index whose entry is exactly equal". -/
theorem aqi_current_alignment_counterexample :
    (resultAqiCurrent (GET validTzSample qEmpty geoDown
        (fun _ => Outcome.resp { status := 200, body := weatherEmptyTime })
        (fun _ => Outcome.resp { status := 200, body := aqiEmptyTimeBody })) =
      some none ∧
      weatherEmptyTime.current_weather.map CurrentWeather.time = some "" ∧
      aqiEmptyTimeBody.hourly.map AirQualityHourly.time = some [""] ∧
      (([""] : List String).get? 0 = some "")) ∧
    (resultAqiCurrent (GET validTzSample qEmpty geoDown
        (fun _ => Outcome.resp { status := 200, body := weatherDupTime })
        (fun _ => Outcome.resp { status := 200, body := aqiDupBody })) =
      some (some { european_aqi := some 1, pm2_5 := some 5 }) ∧
      weatherDupTime.current_weather.map CurrentWeather.time = some "x" ∧
      aqiDupBody.hourly.map AirQualityHourly.time = some ["x", "x"] ∧
      (["x", "x"] : List String).get? 1 = some "x") :=
  ⟨⟨rfl, rfl, rfl, rfl⟩, rfl, rfl, rfl, rfl⟩

/-- Claim C4 (amended): given the weather response's `current_weather.time`
string and the air-quality hourly `time` array: if the string is non-empty
and the array contains an entry exactly equal to it, then
`air_quality.current` equals the `european_aqi`/`pm2_5` values at the
*first* such index; if no entry is exactly equal, or the string is empty,
or `current_weather` is absent, or the air-quality fetch failed,
`air_quality.current` is `null` — no nearest-neighbour matching. -/
theorem aqi_current_exact_alignment (validTz : String → Bool) (place : Place)
    (weather : WeatherResponse)
    (aqiRes : Except String AirQualityResponse) :
    (∀ t i, weather.current_weather.map CurrentWeather.time = some t →
      t ≠ "" → (aqFromJson aqiRes).time.get? i = some t →
      (∀ j b, j < i → (aqFromJson aqiRes).time.get? j = some b → b ≠ t) →
      (buildPayload validTz place weather aqiRes).air_quality.current =
        some { european_aqi :=
                 (aqFromJson aqiRes).european_aqi.bind (fun l => l.get? i),
               pm2_5 := (aqFromJson aqiRes).pm2_5.bind (fun l => l.get? i) }) ∧
    (∀ t, weather.current_weather.map CurrentWeather.time = some t →
      t ∉ (aqFromJson aqiRes).time →
      (buildPayload validTz place weather aqiRes).air_quality.current =
        none) ∧
    (∀ e, aqiRes = Except.error e →
      (buildPayload validTz place weather aqiRes).air_quality.current =
        none) ∧
    (weather.current_weather = none →
      (buildPayload validTz place weather aqiRes).air_quality.current =
        none) := by
  refine ⟨?_, ?_, ?_, ?_⟩
  · intro t i hmap hne hget hfirst
    have hlen : 0 < (aqFromJson aqiRes).time.length := by
      rcases List.get?_eq_some.mp hget with ⟨hi, -⟩
      omega
    have hidx : (aqFromJson aqiRes).time.findIdx? (fun s => s = t) = some i :=
      findIdx?_of_first _ _ i t hget (by simp)
        (fun j b hj hb => decide_eq_false (hfirst j b hj hb))
    simp only [buildPayload, alignCurrent, hmap, hidx]
    rw [if_pos ⟨hne, hlen⟩]
  · intro t hmap hmem
    have hidx : (aqFromJson aqiRes).time.findIdx? (fun s => s = t) = none :=
      findIdx?_of_none _ _
        (fun b hb => decide_eq_false (fun heq => hmem (heq ▸ hb)))
    simp only [buildPayload, alignCurrent, hmap, hidx]
    by_cases hcond : t ≠ "" ∧ 0 < (aqFromJson aqiRes).time.length
    · rw [if_pos hcond]
    · rw [if_neg hcond]
  · intro e he
    subst he
    simp only [buildPayload, aqFromJson_error, alignCurrent_empty]
  · intro hcw
    simp [buildPayload, alignCurrent, hcw]

/-- A minimal concrete place used to instantiate the payload assembly. -/
def placeX : Place := { name := "P", latitude := 0, longitude := 0 }

/-- Weather body whose `current_weather.time` is `"b"`. -/
def weatherTimeB : WeatherResponse :=
  { current_weather := some { temperature := 0, weathercode := 0,
                              windspeed := 0, time := "b" } }

/-- Weather body whose `current_weather.time` is `"zzz"`. -/
def weatherTimeZ : WeatherResponse :=
  { current_weather := some { temperature := 0, weathercode := 0,
                              windspeed := 0, time := "zzz" } }

/-- Air-quality body with times `["b", "a"]`. -/
def aqiBodyBA : AirQualityResponse :=
  { hourly := some { time := ["b", "a"], european_aqi := some [7, 8],
                     pm2_5 := some [3, 4] } }

theorem aqi_current_exact_alignment_witness :
    (buildPayload validTzSample placeX weatherTimeB
        (Except.ok aqiBodyBA)).air_quality.current =
      some { european_aqi := some 7, pm2_5 := some 3 } ∧
    (buildPayload validTzSample placeX weatherTimeZ
        (Except.ok aqiBodyBA)).air_quality.current = none :=
  ⟨by
    have h := (aqi_current_exact_alignment validTzSample placeX weatherTimeB
      (Except.ok aqiBodyBA)).1 "b" 0 rfl (by decide) rfl
      (fun j b hj _ => absurd hj (Nat.not_lt_zero j))
    simpa using h,
   (aqi_current_exact_alignment validTzSample placeX weatherTimeZ
      (Except.ok aqiBodyBA)).2.1 "zzz" rfl (by decide)⟩

end EasyWeather
